import Mathlib

/-!
Verification of the effect-slot and lazy-module-initialization coordinator of
the DeepAR web binding layer (repository `shoe-ar`).

The repository ships only the public type declarations
(`src/deepar-resources/js/types/DeepAR.d.ts`) and narrative documentation; the
implementation of the Slot Registry and the Lazy Subsystem Initializer lives in
the compiled engine bundle and is not part of the visible sources.  The
definitions below therefore embed the coordinator as described by the design
specification (data model, component contracts and cooperative-interleaving
rules), with names taken from the declaration file where it declares them
(`switchEffect`, `clearEffect`, `initializeFootTracking`,
`isFootTrackingInitialized`, `initializeSegmentation`,
`isSegmentationInitialized`, `shutdown`, the thrown error
`SwitchEffectCanceled`).

The model is a single-threaded small-step machine: API calls and asynchronous
completions are atomic events folded over a coordinator state, matching the
spec's cooperative scheduling model in which suspension occurs only at the
boundaries of external fetch and native-module calls.
-/

namespace DeepAR

/-- Slot identifiers are strings; `DeepAR.d.ts` documents the reserved default
slot name. -/
abbrev SlotId := String

/-- Modelled from the spec: `switchEffect` accepts "a path (URL) to the AR
effect file or an ArrayBuffer object of an already fetched AR effect file"
(`DeepAR.d.ts`); the loader implementation is not in the repository. -/
inductive EffectSource
  | url (path : String)
  | buffer (bytes : List Nat)
deriving DecidableEq

/-- Modelled from the spec: the per-slot record of the Slot Registry
(identifier key, monotone `generation` counter, exclusive `activeEffectRef`
ownership, `targetFace` in 0..3); the registry implementation is not in the
repository. -/
structure SlotState where
  generation : Nat
  activeEffectRef : Option EffectSource
  targetFace : Int
deriving DecidableEq

/-- Slots are created implicitly on first reference; a never-referenced slot
has generation 0, no active effect, face 0. -/
def initialSlot : SlotState := { generation := 0, activeEffectRef := none, targetFace := 0 }

/-- The two lazily initialized subsystems (face tracking is always-on). -/
inductive SubsystemKind
  | segmentation
  | footTracking
deriving DecidableEq

/-- Modelled from the spec: subsystem status enum
{Uninitialized, Initializing, Ready, Failed}; the initializer implementation is
not in the repository. -/
inductive SubsysStatus
  | Uninitialized
  | Initializing
  | Ready
  | Failed
deriving DecidableEq

/-- Modelled from the spec: per-subsystem state of the Lazy Subsystem
Initializer — status, queued `pendingWaiters` (promise identifiers), and a
count of underlying bring-up sequences triggered (for stating the
deduplication invariant). -/
structure SubsysState where
  status : SubsysStatus
  pendingWaiters : List Nat
  bringUpCount : Nat
deriving DecidableEq

/-- Subsystem entries are created once at session start in Uninitialized
status. -/
def initialSubsys : SubsysState := { status := .Uninitialized, pendingWaiters := [], bringUpCount := 0 }

/-- The error kinds of the coordinator.  `switchEffectCanceled` is the
`errors.SwitchEffectCanceled` declared thrown by `DeepAR.switchEffect` in
`DeepAR.d.ts`; the remaining kinds are the spec's `EffectLoadFailed`,
`SubsystemInitFailed` and `InvalidParameter`. -/
inductive ErrorKind
  | invalidParameter
  | switchEffectCanceled
  | effectLoadFailed
  | subsystemInitFailed
deriving DecidableEq

/-- A settled promise either resolved (with void) or rejected with an error. -/
inductive Outcome
  | resolved
  | rejected (e : ErrorKind)
deriving DecidableEq

/-- Modelled from the spec: an in-flight effect load — the promise identifier
of the `switchEffect` call, its slot, the generation captured when the call
bumped the slot, and the requested source and face. -/
structure PendingLoad where
  callId : Nat
  slot : SlotId
  capturedGen : Nat
  source : EffectSource
  face : Int
deriving DecidableEq

/-- Mutating calls issued into the opaque Native Engine Handle; the log of
these calls is the model's notion of "engine state". -/
inductive EngineCall
  | install (slot : SlotId) (source : EffectSource) (face : Int)
  | release (slot : SlotId)
deriving DecidableEq

/-- Modelled from the spec: the whole coordinator state — the slot registry
(total map with lazy default `initialSlot`), the in-flight loads, the settled
promises (by identifier), a fresh-promise counter shared by `switchEffect` and
`ensureInitialized`, the log of calls into the Native Engine Handle, and the
per-subsystem initializer state.  The implementation is not in the
repository. -/
structure CoordState where
  slots : SlotId → SlotState
  pending : List PendingLoad
  settled : List (Nat × Outcome)
  nextCallId : Nat
  engineLog : List EngineCall
  subsys : SubsystemKind → SubsysState

/-- Session-start coordinator state. -/
def initState : CoordState :=
  { slots := fun _ => initialSlot
    pending := []
    settled := []
    nextCallId := 0
    engineLog := []
    subsys := fun _ => initialSubsys }

/-- The reserved default slot name documented in `DeepAR.d.ts`. -/
def defaultSlot : SlotId := "DEFAULT_SLOT"

/-- `DeepAR.d.ts`: the face value "should be between 0 and 3". -/
def validFace (f : Int) : Bool := decide (0 ≤ f ∧ f ≤ 3)

/-- Modelled from the spec: the spec rejects a "malformed slot identifier" but
does not define malformedness; the empty string is taken as the malformed
case. -/
def validSlotId (id : SlotId) : Bool := decide (id ≠ "")

/-- Pointwise update of the slot registry. -/
def setSlot (slots : SlotId → SlotState) (id : SlotId) (st : SlotState) : SlotId → SlotState :=
  fun id2 => if id2 = id then st else slots id2

/-- Pointwise update of the subsystem table. -/
def setSub (subsys : SubsystemKind → SubsysState) (k : SubsystemKind) (st : SubsysState) :
    SubsystemKind → SubsysState :=
  fun k2 => if k2 = k then st else subsys k2

/-- Modelled from the spec: the synchronous part of
`DeepAR.switchEffect(effect, {slot, face})` (implementation not in the
repository).  Parameters are validated synchronously: an out-of-range face or
malformed slot identifier rejects the returned promise with `InvalidParameter`
before any asynchronous work begins and mutates no slot or engine state.  A
valid call increments the slot's generation and registers an in-flight load
carrying the captured generation; the promise settles later, at the load's
completion event. -/
def switchEffect (s : CoordState) (slot : Option SlotId) (source : EffectSource)
    (face : Option Int) : CoordState :=
  if validFace (face.getD 0) && validSlotId (slot.getD defaultSlot) then
    { s with
        slots := setSlot s.slots (slot.getD defaultSlot)
          { s.slots (slot.getD defaultSlot) with
              generation := (s.slots (slot.getD defaultSlot)).generation + 1 }
        pending := s.pending ++
          [{ callId := s.nextCallId
             slot := slot.getD defaultSlot
             capturedGen := (s.slots (slot.getD defaultSlot)).generation + 1
             source := source
             face := face.getD 0 }]
        nextCallId := s.nextCallId + 1 }
  else
    { s with
        settled := s.settled ++ [(s.nextCallId, Outcome.rejected ErrorKind.invalidParameter)]
        nextCallId := s.nextCallId + 1 }

/-- Modelled from the spec: `DeepAR.clearEffect(slot)` (implementation not in
the repository).  Increments the slot's generation (superseding any in-flight
load for it), releases `activeEffectRef` immediately — issuing a release call
into the engine only when a handle was actually installed — and sets it to
none.  Returns void and never raises. -/
def clearEffect (s : CoordState) (slot : Option SlotId) : CoordState :=
  { s with
      slots := setSlot s.slots (slot.getD defaultSlot)
        { s.slots (slot.getD defaultSlot) with
            generation := (s.slots (slot.getD defaultSlot)).generation + 1
            activeEffectRef := none }
      engineLog := s.engineLog ++
        (match (s.slots (slot.getD defaultSlot)).activeEffectRef with
          | some _ => [EngineCall.release (slot.getD defaultSlot)]
          | none => []) }

/-- The in-flight load registered for a given promise identifier, if any. -/
def findPending (s : CoordState) (cid : Nat) : Option PendingLoad :=
  s.pending.find? (fun p => p.callId == cid)

/-- Remove an in-flight load by its promise identifier. -/
def removePending (pending : List PendingLoad) (cid : Nat) : List PendingLoad :=
  pending.filter (fun p => p.callId != cid)

/-- Modelled from the spec: the completion step of an in-flight effect load
(implementation not in the repository).  The captured generation is compared
with the slot's current generation atomically with respect to other
completions for that slot.  On a match, the new handle is installed (releasing
the previous one) and the promise resolves on fetch success, or the promise
rejects with `EffectLoadFailed` on fetch failure.  On a mismatch the load is
superseded: the handle is discarded without touching slot or engine state and
the promise rejects with the declared `SwitchEffectCanceled` cancellation
error. -/
def completeLoad (s : CoordState) (cid : Nat) (ok : Bool) : CoordState :=
  match findPending s cid with
  | none => s
  | some p =>
    if p.capturedGen = (s.slots p.slot).generation then
      if ok then
        { s with
            pending := removePending s.pending cid
            slots := setSlot s.slots p.slot
              { s.slots p.slot with activeEffectRef := some p.source, targetFace := p.face }
            engineLog := s.engineLog ++
              (match (s.slots p.slot).activeEffectRef with
                | some _ => [EngineCall.release p.slot]
                | none => []) ++ [EngineCall.install p.slot p.source p.face]
            settled := s.settled ++ [(cid, Outcome.resolved)] }
      else
        { s with
            pending := removePending s.pending cid
            settled := s.settled ++ [(cid, Outcome.rejected ErrorKind.effectLoadFailed)] }
    else
      { s with
          pending := removePending s.pending cid
          settled := s.settled ++ [(cid, Outcome.rejected ErrorKind.switchEffectCanceled)] }

/-- Modelled from the spec: `ensureInitialized(subsystemKind)` of the Lazy
Subsystem Initializer (implementation not in the repository).  Ready: the
fresh promise resolves immediately and nothing else changes.  Failed is
terminal for the session: the fresh promise rejects immediately with
`SubsystemInitFailed`.  Initializing: the promise is queued onto
`pendingWaiters`, triggering no duplicate bring-up.  Uninitialized: the status
moves to Initializing, exactly one underlying bring-up sequence is started
(counted by `bringUpCount`), and the promise is queued. -/
def ensureInitialized (s : CoordState) (k : SubsystemKind) : CoordState :=
  match (s.subsys k).status with
  | .Ready =>
    { s with
        settled := s.settled ++ [(s.nextCallId, Outcome.resolved)]
        nextCallId := s.nextCallId + 1 }
  | .Failed =>
    { s with
        settled := s.settled ++ [(s.nextCallId, Outcome.rejected ErrorKind.subsystemInitFailed)]
        nextCallId := s.nextCallId + 1 }
  | .Initializing =>
    { s with
        subsys := setSub s.subsys k
          { s.subsys k with pendingWaiters := (s.subsys k).pendingWaiters ++ [s.nextCallId] }
        nextCallId := s.nextCallId + 1 }
  | .Uninitialized =>
    { s with
        subsys := setSub s.subsys k
          { status := .Initializing
            pendingWaiters := (s.subsys k).pendingWaiters ++ [s.nextCallId]
            bringUpCount := (s.subsys k).bringUpCount + 1 }
        nextCallId := s.nextCallId + 1 }

/-- Modelled from the spec: the settlement step of a subsystem bring-up
(implementation not in the repository).  Only an Initializing subsystem can
settle; it moves to Ready (success) or Failed (error), and every queued waiter
is settled identically within the same step — all resolve together, or all
reject together with `SubsystemInitFailed`. -/
def settleBringUp (s : CoordState) (k : SubsystemKind) (ok : Bool) : CoordState :=
  if (s.subsys k).status = .Initializing then
    { s with
        subsys := setSub s.subsys k
          { status := if ok then .Ready else .Failed
            pendingWaiters := []
            bringUpCount := (s.subsys k).bringUpCount }
        settled := s.settled ++ (s.subsys k).pendingWaiters.map
          (fun w => (w, if ok then Outcome.resolved else Outcome.rejected ErrorKind.subsystemInitFailed)) }
  else s

/-- `isInitialized(subsystemKind)`: pure read of status = Ready. -/
def isInitialized (s : CoordState) (k : SubsystemKind) : Bool :=
  (s.subsys k).status == .Ready

/-- The observation as an operation returning its value together with the
(unchanged) coordinator state, to state the frame property. -/
def isInitializedOp (s : CoordState) (k : SubsystemKind) : Bool × CoordState :=
  (isInitialized s k, s)

/-- `DeepAR.initializeFootTracking()`: ensure bring-up of foot tracking. -/
def initializeFootTracking (s : CoordState) : CoordState :=
  ensureInitialized s .footTracking

/-- `DeepAR.initializeSegmentation()`: ensure bring-up of segmentation. -/
def initializeSegmentation (s : CoordState) : CoordState :=
  ensureInitialized s .segmentation

/-- `DeepAR.isFootTrackingInitialized()`. -/
def isFootTrackingInitialized (s : CoordState) : Bool :=
  isInitialized s .footTracking

/-- `DeepAR.isSegmentationInitialized()`. -/
def isSegmentationInitialized (s : CoordState) : Bool :=
  isInitialized s .segmentation

/-- The atomic events of the cooperative schedule: the two Slot Registry API
calls, an asynchronous load completion (with the external fetch's success
flag), an `ensureInitialized` call, and the asynchronous settlement of a
bring-up. -/
inductive Event
  | switch (slot : Option SlotId) (source : EffectSource) (face : Option Int)
  | clear (slot : Option SlotId)
  | complete (callId : Nat) (ok : Bool)
  | ensure (k : SubsystemKind)
  | settle (k : SubsystemKind) (ok : Bool)
deriving DecidableEq

/-- One atomic step of the coordinator. -/
def step (s : CoordState) (e : Event) : CoordState :=
  match e with
  | .switch slot source face => switchEffect s slot source face
  | .clear slot => clearEffect s slot
  | .complete cid ok => completeLoad s cid ok
  | .ensure k => ensureInitialized s k
  | .settle k ok => settleBringUp s k ok

/-- Run a sequence of events from a given state. -/
def runFrom (s : CoordState) (es : List Event) : CoordState := es.foldl step s

/-- Run a sequence of events from the session-start state. -/
def runTrace (es : List Event) : CoordState := runFrom initState es

/-- Modelled from the spec: the session facade object handed out by the
top-level entry point (implementation not in the repository).  `DeepAR.d.ts`
documents that after `shutdown` "it is invalid to call any function from this
DeepAR object", and that calling the entry point again afterwards is
possible. -/
structure Session where
  alive : Bool
  coord : CoordState

/-- A fresh session as produced by the top-level entry point: live, with the
coordinator in its session-start state. -/
def initializeSession : Session := { alive := true, coord := initState }

/-- Modelled from the spec: `DeepAR.shutdown()` releases all resources of the
session and invalidates the object (implementation not in the repository). -/
def shutdown (_s : Session) : Session := { alive := false, coord := initState }

/-- The public methods of the `DeepAR` class as declared in `DeepAR.d.ts`. -/
inductive Method
  | switchEffect
  | clearEffect
  | takeScreenshot
  | startVideoRecording
  | finishVideoRecording
  | startCamera
  | stopCamera
  | stopVideo
  | setVideoElement
  | shutdown
  | processFrame
  | processImage
  | setPaused
  | changeParameterFloat
  | changeParameterBool
  | changeParameterVector
  | changeParameterTexture
  | fireTrigger
  | touchOccurred
  | setFaceDetectionSensitivity
  | setOffscreenRenderingEnabled
  | setFps
  | initializeFootTracking
  | isFootTrackingInitialized
  | initializeSegmentation
  | isSegmentationInitialized
  | showStats
  | simulatePhysics
  | moveGameObject
deriving DecidableEq

/-- A method call on the session object is valid exactly while the session is
live; `shutdown` invalidates every method at once. -/
def callable (s : Session) (_m : Method) : Bool := s.alive

/-- Data-model invariant of the Slot Registry: an in-flight load's captured
generation never exceeds its slot's current generation (the slot's generation
only grows after the capture). -/
def pendingGenLe (s : CoordState) : Prop :=
  ∀ p ∈ s.pending, p.capturedGen ≤ (s.slots p.slot).generation

/-- Initializer invariant coupling the bring-up counter to the status: no
bring-up has run while Uninitialized, and exactly one has run otherwise. -/
def bringUpMatchesStatus (s : CoordState) : Prop :=
  ∀ k, (s.subsys k).bringUpCount = (if (s.subsys k).status = .Uninitialized then 0 else 1)

/-- Initializer invariant: waiters are queued only while a bring-up is in
flight. -/
def waitersOnlyWhileInFlight (s : CoordState) : Prop :=
  ∀ k, (s.subsys k).status ≠ .Initializing → (s.subsys k).pendingWaiters = []

/-- Promise identifier `cid` is accounted for: still in flight as an effect
load, queued as a subsystem waiter, or settled. -/
def covered (s : CoordState) (cid : Nat) : Prop :=
  (∃ p ∈ s.pending, p.callId = cid)
    ∨ (∃ k, cid ∈ (s.subsys k).pendingWaiters)
    ∨ (∃ out, (cid, out) ∈ s.settled)

/-- Every issued promise identifier is accounted for. -/
def coverage (s : CoordState) : Prop :=
  ∀ cid, cid < s.nextCallId → covered s cid

/-- The legal status transitions of a subsystem:
Uninitialized→Initializing→{Ready,Failed}, or no change. -/
def allowedTransition (a b : SubsysStatus) : Prop :=
  a = b
    ∨ (a = .Uninitialized ∧ b = .Initializing)
    ∨ (a = .Initializing ∧ (b = .Ready ∨ b = .Failed))

/-- The completion events the environment still owes the coordinator: one load
completion per in-flight effect load and one bring-up settlement per
subsystem still Initializing.  Cooperative fairness assumes these eventually
fire; firing them drains every unsettled promise. -/
def drainEvents (s : CoordState) : List Event :=
  s.pending.map (fun p => Event.complete p.callId true)
    ++ (if (s.subsys .segmentation).status = .Initializing
        then [Event.settle .segmentation true] else [])
    ++ (if (s.subsys .footTracking).status = .Initializing
        then [Event.settle .footTracking true] else [])

/-- The state reached after an arbitrary schedule `es` once the environment
has delivered every owed completion. -/
def finalState (es : List Event) : CoordState :=
  runTrace (es ++ drainEvents (runTrace es))

/-- A schedule with two competing `switchEffect` calls on one slot. -/
def twoSwitches : List Event :=
  [Event.switch (some "s") (EffectSource.url "A") none,
   Event.switch (some "s") (EffectSource.url "B") none]

/-- The in-flight load created by the first of the two competing calls. -/
def firstLoad : PendingLoad :=
  { callId := 0, slot := "s", capturedGen := 1, source := EffectSource.url "A", face := 0 }

/-- A schedule with a single `switchEffect` call. -/
def oneSwitch : List Event :=
  [Event.switch (some "s") (EffectSource.url "A") none]

/-- A schedule that brings segmentation fully up. -/
def readyTrace : List Event :=
  [Event.ensure .segmentation, Event.settle .segmentation true]

/-- A schedule with two concurrent `ensureInitialized` calls on segmentation,
neither yet settled. -/
def ensureTwice : List Event :=
  [Event.ensure .segmentation, Event.ensure .segmentation]

theorem setSlot_same (slots : SlotId → SlotState) (id : SlotId) (st : SlotState) :
    setSlot slots id st id = st := by
  simp [setSlot]

theorem setSlot_other (slots : SlotId → SlotState) (id id2 : SlotId) (st : SlotState)
    (h : id2 ≠ id) : setSlot slots id st id2 = slots id2 := by
  simp [setSlot, h]

theorem setSub_same (subsys : SubsystemKind → SubsysState) (k : SubsystemKind)
    (st : SubsysState) : setSub subsys k st k = st := by
  simp [setSub]

theorem setSub_other (subsys : SubsystemKind → SubsysState) (k k2 : SubsystemKind)
    (st : SubsysState) (h : k2 ≠ k) : setSub subsys k st k2 = subsys k2 := by
  simp [setSub, h]

theorem runFrom_nil (s : CoordState) : runFrom s [] = s := rfl

theorem runFrom_cons (s : CoordState) (e : Event) (es : List Event) :
    runFrom s (e :: es) = runFrom (step s e) es := rfl

theorem runFrom_append (s : CoordState) (es fs : List Event) :
    runFrom s (es ++ fs) = runFrom (runFrom s es) fs := by
  simp [runFrom, List.foldl_append]

theorem runFrom_inv (P : CoordState → Prop) (hstep : ∀ s e, P s → P (step s e)) :
    ∀ (es : List Event) (s : CoordState), P s → P (runFrom s es) := by
  intro es
  induction es with
  | nil => intro s h; exact h
  | cons e es ih =>
    intro s h
    exact ih (step s e) (hstep s e h)

theorem switchEffect_subsys (s : CoordState) (slot : Option SlotId) (source : EffectSource)
    (face : Option Int) : (switchEffect s slot source face).subsys = s.subsys := by
  unfold switchEffect
  split <;> rfl

theorem switchEffect_engineLog (s : CoordState) (slot : Option SlotId) (source : EffectSource)
    (face : Option Int) : (switchEffect s slot source face).engineLog = s.engineLog := by
  unfold switchEffect
  split <;> rfl

theorem switchEffect_nextCallId (s : CoordState) (slot : Option SlotId) (source : EffectSource)
    (face : Option Int) : (switchEffect s slot source face).nextCallId = s.nextCallId + 1 := by
  unfold switchEffect
  split <;> rfl

theorem clearEffect_pending (s : CoordState) (slot : Option SlotId) :
    (clearEffect s slot).pending = s.pending := rfl

theorem clearEffect_settled (s : CoordState) (slot : Option SlotId) :
    (clearEffect s slot).settled = s.settled := rfl

theorem clearEffect_nextCallId (s : CoordState) (slot : Option SlotId) :
    (clearEffect s slot).nextCallId = s.nextCallId := rfl

theorem clearEffect_subsys (s : CoordState) (slot : Option SlotId) :
    (clearEffect s slot).subsys = s.subsys := rfl

theorem completeLoad_subsys (s : CoordState) (cid : Nat) (ok : Bool) :
    (completeLoad s cid ok).subsys = s.subsys := by
  unfold completeLoad
  split
  · rfl
  · split
    · split <;> rfl
    · rfl

theorem completeLoad_nextCallId (s : CoordState) (cid : Nat) (ok : Bool) :
    (completeLoad s cid ok).nextCallId = s.nextCallId := by
  unfold completeLoad
  split
  · rfl
  · split
    · split <;> rfl
    · rfl

theorem completeLoad_pending (s : CoordState) (cid : Nat) (ok : Bool) :
    (completeLoad s cid ok).pending = removePending s.pending cid := by
  unfold completeLoad
  split
  next heq =>
    have hall : ∀ p ∈ s.pending, ¬ (p.callId == cid) = true := List.find?_eq_none.mp heq
    have hself : removePending s.pending cid = s.pending := by
      apply List.filter_eq_self.mpr
      intro p hp
      have hb := hall p hp
      simp only [bne, Bool.not_eq_true] at hb ⊢
      simp [hb]
    exact hself.symm
  next p heq =>
    split
    · split <;> rfl
    · rfl

theorem ensureInitialized_slots (s : CoordState) (k : SubsystemKind) :
    (ensureInitialized s k).slots = s.slots := by
  unfold ensureInitialized
  split <;> rfl

theorem ensureInitialized_pending (s : CoordState) (k : SubsystemKind) :
    (ensureInitialized s k).pending = s.pending := by
  unfold ensureInitialized
  split <;> rfl

theorem ensureInitialized_engineLog (s : CoordState) (k : SubsystemKind) :
    (ensureInitialized s k).engineLog = s.engineLog := by
  unfold ensureInitialized
  split <;> rfl

theorem ensureInitialized_nextCallId (s : CoordState) (k : SubsystemKind) :
    (ensureInitialized s k).nextCallId = s.nextCallId + 1 := by
  unfold ensureInitialized
  split <;> rfl

theorem settleBringUp_slots (s : CoordState) (k : SubsystemKind) (ok : Bool) :
    (settleBringUp s k ok).slots = s.slots := by
  unfold settleBringUp
  split <;> rfl

theorem settleBringUp_pending (s : CoordState) (k : SubsystemKind) (ok : Bool) :
    (settleBringUp s k ok).pending = s.pending := by
  unfold settleBringUp
  split <;> rfl

theorem settleBringUp_engineLog (s : CoordState) (k : SubsystemKind) (ok : Bool) :
    (settleBringUp s k ok).engineLog = s.engineLog := by
  unfold settleBringUp
  split <;> rfl

theorem settleBringUp_nextCallId (s : CoordState) (k : SubsystemKind) (ok : Bool) :
    (settleBringUp s k ok).nextCallId = s.nextCallId := by
  unfold settleBringUp
  split <;> rfl

theorem completeLoad_superseded (s : CoordState) (cid : Nat) (ok : Bool) (p : PendingLoad)
    (hf : findPending s cid = some p)
    (hg : ¬ p.capturedGen = (s.slots p.slot).generation) :
    completeLoad s cid ok =
      { s with
          pending := removePending s.pending cid
          settled := s.settled ++ [(cid, Outcome.rejected ErrorKind.switchEffectCanceled)] } := by
  unfold completeLoad
  simp only [hf]
  rw [if_neg hg]

theorem completeLoad_matched_fail (s : CoordState) (cid : Nat) (p : PendingLoad)
    (hf : findPending s cid = some p)
    (hg : p.capturedGen = (s.slots p.slot).generation) :
    completeLoad s cid false =
      { s with
          pending := removePending s.pending cid
          settled := s.settled ++ [(cid, Outcome.rejected ErrorKind.effectLoadFailed)] } := by
  unfold completeLoad
  simp only [hf]
  rw [if_pos hg]
  rfl

theorem completeLoad_matched_ok (s : CoordState) (cid : Nat) (p : PendingLoad)
    (hf : findPending s cid = some p)
    (hg : p.capturedGen = (s.slots p.slot).generation) :
    completeLoad s cid true =
      { s with
          pending := removePending s.pending cid
          slots := setSlot s.slots p.slot
            { s.slots p.slot with activeEffectRef := some p.source, targetFace := p.face }
          engineLog := s.engineLog ++
            (match (s.slots p.slot).activeEffectRef with
              | some _ => [EngineCall.release p.slot]
              | none => []) ++ [EngineCall.install p.slot p.source p.face]
          settled := s.settled ++ [(cid, Outcome.resolved)] } := by
  unfold completeLoad
  simp only [hf]
  rw [if_pos hg]
  rfl

theorem completeLoad_generation (s : CoordState) (cid : Nat) (ok : Bool) (id : SlotId) :
    ((completeLoad s cid ok).slots id).generation = (s.slots id).generation := by
  unfold completeLoad
  split
  · rfl
  next p heq =>
    split
    · split
      · dsimp only
        by_cases hid : id = p.slot
        · subst hid
          rw [setSlot_same]
        · rw [setSlot_other _ _ _ _ hid]
      · rfl
    · rfl

theorem pendingGenLe_step (s : CoordState) (e : Event) (h : pendingGenLe s) :
    pendingGenLe (step s e) := by
  cases e with
  | switch slot source face =>
    show pendingGenLe (switchEffect s slot source face)
    unfold switchEffect
    split
    · intro p hp
      dsimp only at hp ⊢
      simp only [List.mem_append, List.mem_singleton] at hp
      rcases hp with hp | hp
      · by_cases hps : p.slot = slot.getD defaultSlot
        · rw [hps, setSlot_same]
          have hb := h p hp
          rw [hps] at hb
          exact Nat.le_succ_of_le hb
        · rw [setSlot_other _ _ _ _ hps]
          exact h p hp
      · subst hp
        simp [setSlot_same]
    · intro p hp
      exact h p hp
  | clear slot =>
    intro p hp
    have hp' : p ∈ s.pending := hp
    have hb := h p hp'
    show p.capturedGen ≤
      ((setSlot s.slots (slot.getD defaultSlot)
        { s.slots (slot.getD defaultSlot) with
            generation := (s.slots (slot.getD defaultSlot)).generation + 1
            activeEffectRef := none }) p.slot).generation
    by_cases hps : p.slot = slot.getD defaultSlot
    · rw [hps, setSlot_same]
      rw [hps] at hb
      exact Nat.le_succ_of_le hb
    · rw [setSlot_other _ _ _ _ hps]
      exact hb
  | complete cid ok =>
    show pendingGenLe (completeLoad s cid ok)
    intro p hp
    have hp2 : p ∈ removePending s.pending cid := completeLoad_pending s cid ok ▸ hp
    have hp' : p ∈ s.pending := (List.mem_filter.mp hp2).1
    have hb := h p hp'
    rw [completeLoad_generation]
    exact hb
  | ensure k =>
    show pendingGenLe (ensureInitialized s k)
    intro p hp
    have hp' : p ∈ s.pending := ensureInitialized_pending s k ▸ hp
    have hb := h p hp'
    rw [ensureInitialized_slots]
    exact hb
  | settle k ok =>
    show pendingGenLe (settleBringUp s k ok)
    intro p hp
    have hp' : p ∈ s.pending := settleBringUp_pending s k ok ▸ hp
    have hb := h p hp'
    rw [settleBringUp_slots]
    exact hb

theorem bringUpMatchesStatus_step (s : CoordState) (e : Event)
    (h : bringUpMatchesStatus s) : bringUpMatchesStatus (step s e) := by
  cases e with
  | switch slot source face =>
    show bringUpMatchesStatus (switchEffect s slot source face)
    intro k
    rw [switchEffect_subsys]
    exact h k
  | clear slot =>
    intro k
    exact h k
  | complete cid ok =>
    show bringUpMatchesStatus (completeLoad s cid ok)
    intro k
    rw [completeLoad_subsys]
    exact h k
  | ensure k0 =>
    show bringUpMatchesStatus (ensureInitialized s k0)
    intro k
    unfold ensureInitialized
    split
    next hst => exact h k
    next hst => exact h k
    next hst =>
      dsimp only
      by_cases hk : k = k0
      · subst hk
        rw [setSub_same]
        have hb := h k
        rw [hst] at hb
        simp only [hst]
        simpa using hb
      · rw [setSub_other _ _ _ _ hk]
        exact h k
    next hst =>
      dsimp only
      by_cases hk : k = k0
      · subst hk
        rw [setSub_same]
        have hb := h k
        rw [hst] at hb
        simp only at hb ⊢
        simp at hb
        simp [hb]
      · rw [setSub_other _ _ _ _ hk]
        exact h k
  | settle k0 ok =>
    show bringUpMatchesStatus (settleBringUp s k0 ok)
    intro k
    unfold settleBringUp
    split
    next hst =>
      dsimp only
      by_cases hk : k = k0
      · subst hk
        rw [setSub_same]
        have hb := h k
        rw [hst] at hb
        simp only at hb ⊢
        simp at hb
        cases ok <;> simp [hb]
      · rw [setSub_other _ _ _ _ hk]
        exact h k
    next hst => exact h k

theorem status_transition_step (s : CoordState) (e : Event) (k : SubsystemKind) :
    allowedTransition ((s.subsys k).status) (((step s e).subsys k).status) := by
  cases e with
  | switch slot source face =>
    show allowedTransition _ ((switchEffect s slot source face).subsys k).status
    rw [switchEffect_subsys]
    exact Or.inl rfl
  | clear slot => exact Or.inl rfl
  | complete cid ok =>
    show allowedTransition _ ((completeLoad s cid ok).subsys k).status
    rw [completeLoad_subsys]
    exact Or.inl rfl
  | ensure k0 =>
    show allowedTransition _ ((ensureInitialized s k0).subsys k).status
    unfold ensureInitialized
    split
    next hst => exact Or.inl rfl
    next hst => exact Or.inl rfl
    next hst =>
      dsimp only
      by_cases hk : k = k0
      · subst hk
        rw [setSub_same]
        exact Or.inl rfl
      · rw [setSub_other _ _ _ _ hk]
        exact Or.inl rfl
    next hst =>
      dsimp only
      by_cases hk : k = k0
      · subst hk
        rw [setSub_same]
        exact Or.inr (Or.inl ⟨hst, rfl⟩)
      · rw [setSub_other _ _ _ _ hk]
        exact Or.inl rfl
  | settle k0 ok =>
    show allowedTransition _ ((settleBringUp s k0 ok).subsys k).status
    unfold settleBringUp
    split
    next hst =>
      dsimp only
      by_cases hk : k = k0
      · subst hk
        rw [setSub_same]
        cases ok
        · exact Or.inr (Or.inr ⟨hst, Or.inr rfl⟩)
        · exact Or.inr (Or.inr ⟨hst, Or.inl rfl⟩)
      · rw [setSub_other _ _ _ _ hk]
        exact Or.inl rfl
    next hst => exact Or.inl rfl

theorem ready_preserved (s : CoordState) (es : List Event) (k : SubsystemKind)
    (h : (s.subsys k).status = .Ready) : ((runFrom s es).subsys k).status = .Ready := by
  induction es generalizing s with
  | nil => exact h
  | cons e es ih =>
    rw [runFrom_cons]
    apply ih
    rcases status_transition_step s e k with heq | ⟨ha, _⟩ | ⟨ha, _⟩
    · rw [← heq]
      exact h
    · rw [h] at ha
      exact SubsysStatus.noConfusion ha
    · rw [h] at ha
      exact SubsysStatus.noConfusion ha

theorem runFrom_singleton (s : CoordState) (e : Event) : runFrom s [e] = step s e := rfl

theorem step_settle (s : CoordState) (k : SubsystemKind) (ok : Bool) :
    step s (Event.settle k ok) = settleBringUp s k ok := rfl

theorem completeLoad_settled_mono (s : CoordState) (cid : Nat) (ok : Bool)
    (x : Nat × Outcome) (hx : x ∈ s.settled) : x ∈ (completeLoad s cid ok).settled := by
  unfold completeLoad
  split
  · exact hx
  next p heq =>
    split
    · split
      · dsimp only
        exact List.mem_append_left _ hx
      · dsimp only
        exact List.mem_append_left _ hx
    · dsimp only
      exact List.mem_append_left _ hx

theorem settleBringUp_waiters_self (s : CoordState) (k : SubsystemKind) (ok : Bool)
    (h : (s.subsys k).status = .Initializing) :
    ((settleBringUp s k ok).subsys k).pendingWaiters = [] := by
  unfold settleBringUp
  rw [if_pos h]
  dsimp only
  rw [setSub_same]

theorem settleBringUp_subsys_other (s : CoordState) (k0 : SubsystemKind) (ok : Bool)
    (k : SubsystemKind) (hk : k ≠ k0) :
    (settleBringUp s k0 ok).subsys k = s.subsys k := by
  unfold settleBringUp
  split
  · dsimp only
    rw [setSub_other _ _ _ _ hk]
  · rfl

theorem settleBringUp_id (s : CoordState) (k : SubsystemKind) (ok : Bool)
    (h : ¬ (s.subsys k).status = .Initializing) : settleBringUp s k ok = s := by
  unfold settleBringUp
  rw [if_neg h]

theorem runFrom_completes_subsys (l : List PendingLoad) :
    ∀ s : CoordState,
      (runFrom s (l.map (fun p => Event.complete p.callId true))).subsys = s.subsys := by
  induction l with
  | nil => intro s; rfl
  | cons x l ih =>
    intro s
    rw [List.map_cons, runFrom_cons]
    have h1 := ih (step s (Event.complete x.callId true))
    rw [h1]
    exact completeLoad_subsys s x.callId true

theorem runFrom_completes_pending (l : List PendingLoad) :
    ∀ s : CoordState,
      (∀ q ∈ s.pending, q.callId ∈ l.map PendingLoad.callId) →
      (runFrom s (l.map (fun p => Event.complete p.callId true))).pending = [] := by
  induction l with
  | nil =>
    intro s hall
    show s.pending = []
    cases hsp : s.pending with
    | nil => rfl
    | cons q qs =>
      exfalso
      have hqmem : q ∈ s.pending := by
        rw [hsp]
        exact List.mem_cons_self q qs
      have := hall q hqmem
      simp at this
  | cons x l ih =>
    intro s hall
    rw [List.map_cons, runFrom_cons]
    apply ih
    intro q hq
    have hq1 : q ∈ (completeLoad s x.callId true).pending := hq
    rw [completeLoad_pending] at hq1
    have hq3 := List.mem_filter.mp hq1
    have hqp : q ∈ s.pending := hq3.1
    have hqc : (q.callId != x.callId) = true := hq3.2
    have hmem := hall q hqp
    rw [List.map_cons] at hmem
    rcases List.mem_cons.mp hmem with heq | hmem2
    · exfalso
      rw [heq] at hqc
      simp at hqc
    · exact hmem2

theorem waitersOnly_step (s : CoordState) (e : Event) (h : waitersOnlyWhileInFlight s) :
    waitersOnlyWhileInFlight (step s e) := by
  cases e with
  | switch slot source face =>
    show waitersOnlyWhileInFlight (switchEffect s slot source face)
    intro k
    rw [switchEffect_subsys]
    exact h k
  | clear slot =>
    intro k
    exact h k
  | complete cid ok =>
    show waitersOnlyWhileInFlight (completeLoad s cid ok)
    intro k
    rw [completeLoad_subsys]
    exact h k
  | ensure k0 =>
    show waitersOnlyWhileInFlight (ensureInitialized s k0)
    intro k
    unfold ensureInitialized
    split
    next hst => exact h k
    next hst => exact h k
    next hst =>
      dsimp only
      by_cases hkk : k = k0
      · subst hkk
        rw [setSub_same]
        intro hne
        exact absurd hst hne
      · rw [setSub_other _ _ _ _ hkk]
        exact h k
    next hst =>
      dsimp only
      by_cases hkk : k = k0
      · subst hkk
        rw [setSub_same]
        intro hne
        exact absurd rfl hne
      · rw [setSub_other _ _ _ _ hkk]
        exact h k
  | settle k0 ok =>
    show waitersOnlyWhileInFlight (settleBringUp s k0 ok)
    intro k
    unfold settleBringUp
    split
    next hst =>
      dsimp only
      by_cases hkk : k = k0
      · subst hkk
        rw [setSub_same]
        intro hne
        rfl
      · rw [setSub_other _ _ _ _ hkk]
        exact h k
    next hst => exact h k

theorem finalState_eq (es : List Event) :
    finalState es = runFrom (runTrace es) (drainEvents (runTrace es)) := by
  unfold finalState runTrace
  rw [runFrom_append]

theorem drain_all (s : CoordState) (hw : waitersOnlyWhileInFlight s) :
    (runFrom s (drainEvents s)).pending = []
    ∧ ∀ k, ((runFrom s (drainEvents s)).subsys k).pendingWaiters = [] := by
  have h1p : (runFrom s (s.pending.map (fun p => Event.complete p.callId true))).pending = [] :=
    runFrom_completes_pending s.pending s (fun q hq => List.mem_map_of_mem _ hq)
  have h1s : (runFrom s (s.pending.map (fun p => Event.complete p.callId true))).subsys
      = s.subsys :=
    runFrom_completes_subsys s.pending s
  rw [drainEvents, runFrom_append, runFrom_append]
  by_cases hseg : (s.subsys .segmentation).status = .Initializing
  · rw [if_pos hseg, runFrom_singleton, step_settle]
    have hsegs : ((runFrom s (s.pending.map (fun p => Event.complete p.callId true))).subsys
        .segmentation).status = .Initializing := by
      rw [h1s]
      exact hseg
    by_cases hfoot : (s.subsys .footTracking).status = .Initializing
    · rw [if_pos hfoot, runFrom_singleton, step_settle]
      constructor
      · rw [settleBringUp_pending, settleBringUp_pending]
        exact h1p
      · intro k
        cases k with
        | segmentation =>
          rw [settleBringUp_subsys_other _ _ _ _ (by intro hcon; cases hcon)]
          exact settleBringUp_waiters_self _ _ _ hsegs
        | footTracking =>
          apply settleBringUp_waiters_self
          rw [settleBringUp_subsys_other _ _ _ _ (by intro hcon; cases hcon), h1s]
          exact hfoot
    · rw [if_neg hfoot, runFrom_nil]
      constructor
      · rw [settleBringUp_pending]
        exact h1p
      · intro k
        cases k with
        | segmentation => exact settleBringUp_waiters_self _ _ _ hsegs
        | footTracking =>
          rw [settleBringUp_subsys_other _ _ _ _ (by intro hcon; cases hcon), h1s]
          exact hw .footTracking hfoot
  · rw [if_neg hseg, runFrom_nil]
    have hsegw : ((runFrom s (s.pending.map (fun p => Event.complete p.callId true))).subsys
        .segmentation).pendingWaiters = [] := by
      rw [h1s]
      exact hw .segmentation hseg
    by_cases hfoot : (s.subsys .footTracking).status = .Initializing
    · rw [if_pos hfoot, runFrom_singleton, step_settle]
      constructor
      · rw [settleBringUp_pending]
        exact h1p
      · intro k
        cases k with
        | segmentation =>
          rw [settleBringUp_subsys_other _ _ _ _ (by intro hcon; cases hcon)]
          exact hsegw
        | footTracking =>
          apply settleBringUp_waiters_self
          rw [h1s]
          exact hfoot
    · rw [if_neg hfoot, runFrom_nil]
      refine ⟨h1p, ?_⟩
      intro k
      cases k with
      | segmentation => exact hsegw
      | footTracking =>
        rw [h1s]
        exact hw .footTracking hfoot

theorem coverage_step (s : CoordState) (e : Event) (h : coverage s) :
    coverage (step s e) := by
  cases e with
  | switch slot source face =>
    show coverage (switchEffect s slot source face)
    intro cid hcid
    rw [switchEffect_nextCallId] at hcid
    by_cases hlt : cid < s.nextCallId
    · rcases h cid hlt with ⟨p, hp, hpc⟩ | ⟨k, hk⟩ | ⟨out, ho⟩
      · left
        refine ⟨p, ?_, hpc⟩
        unfold switchEffect
        split
        · dsimp only
          exact List.mem_append_left _ hp
        · exact hp
      · right; left
        refine ⟨k, ?_⟩
        rw [switchEffect_subsys]
        exact hk
      · right; right
        refine ⟨out, ?_⟩
        unfold switchEffect
        split
        · exact ho
        · dsimp only
          exact List.mem_append_left _ ho
    · have hceq : cid = s.nextCallId := by omega
      subst hceq
      unfold switchEffect
      split
      · left
        dsimp only
        exact ⟨_, List.mem_append_right _ (List.mem_singleton.mpr rfl), rfl⟩
      · right; right
        refine ⟨Outcome.rejected ErrorKind.invalidParameter, ?_⟩
        dsimp only
        exact List.mem_append_right _ (List.mem_singleton.mpr rfl)
  | clear slot =>
    intro cid hcid
    exact h cid hcid
  | complete cid0 ok =>
    show coverage (completeLoad s cid0 ok)
    intro cid hcid
    rw [completeLoad_nextCallId] at hcid
    rcases h cid hcid with ⟨p, hp, hpc⟩ | ⟨k, hk⟩ | ⟨out, ho⟩
    · by_cases hc : p.callId = cid0
      · have hcc : cid = cid0 := by
          rw [← hpc]
          exact hc
        subst hcc
        cases hfind : findPending s cid with
        | none =>
          exfalso
          have hnone := List.find?_eq_none.mp hfind p hp
          simp [hc] at hnone
        | some q =>
          right; right
          unfold completeLoad
          simp only [hfind]
          split
          · split
            · refine ⟨Outcome.resolved, ?_⟩
              dsimp only
              exact List.mem_append_right _ (List.mem_singleton.mpr rfl)
            · refine ⟨Outcome.rejected ErrorKind.effectLoadFailed, ?_⟩
              dsimp only
              exact List.mem_append_right _ (List.mem_singleton.mpr rfl)
          · refine ⟨Outcome.rejected ErrorKind.switchEffectCanceled, ?_⟩
            dsimp only
            exact List.mem_append_right _ (List.mem_singleton.mpr rfl)
      · left
        refine ⟨p, ?_, hpc⟩
        rw [completeLoad_pending]
        refine List.mem_filter.mpr ⟨hp, ?_⟩
        simp [hc]
    · right; left
      refine ⟨k, ?_⟩
      rw [completeLoad_subsys]
      exact hk
    · right; right
      exact ⟨out, completeLoad_settled_mono s cid0 ok _ ho⟩
  | ensure k0 =>
    show coverage (ensureInitialized s k0)
    intro cid hcid
    rw [ensureInitialized_nextCallId] at hcid
    by_cases hlt : cid < s.nextCallId
    · rcases h cid hlt with ⟨p, hp, hpc⟩ | ⟨k, hk⟩ | ⟨out, ho⟩
      · left
        refine ⟨p, ?_, hpc⟩
        rw [ensureInitialized_pending]
        exact hp
      · right; left
        refine ⟨k, ?_⟩
        unfold ensureInitialized
        split
        next hst => exact hk
        next hst => exact hk
        next hst =>
          dsimp only
          by_cases hkk : k = k0
          · subst hkk
            rw [setSub_same]
            dsimp only
            exact List.mem_append_left _ hk
          · rw [setSub_other _ _ _ _ hkk]
            exact hk
        next hst =>
          dsimp only
          by_cases hkk : k = k0
          · subst hkk
            rw [setSub_same]
            dsimp only
            exact List.mem_append_left _ hk
          · rw [setSub_other _ _ _ _ hkk]
            exact hk
      · right; right
        refine ⟨out, ?_⟩
        unfold ensureInitialized
        split
        next hst =>
          dsimp only
          exact List.mem_append_left _ ho
        next hst =>
          dsimp only
          exact List.mem_append_left _ ho
        next hst => exact ho
        next hst => exact ho
    · have hceq : cid = s.nextCallId := by omega
      subst hceq
      unfold ensureInitialized
      split
      next hst =>
        right; right
        refine ⟨Outcome.resolved, ?_⟩
        dsimp only
        exact List.mem_append_right _ (List.mem_singleton.mpr rfl)
      next hst =>
        right; right
        refine ⟨Outcome.rejected ErrorKind.subsystemInitFailed, ?_⟩
        dsimp only
        exact List.mem_append_right _ (List.mem_singleton.mpr rfl)
      next hst =>
        right; left
        refine ⟨k0, ?_⟩
        dsimp only
        rw [setSub_same]
        dsimp only
        exact List.mem_append_right _ (List.mem_singleton.mpr rfl)
      next hst =>
        right; left
        refine ⟨k0, ?_⟩
        dsimp only
        rw [setSub_same]
        dsimp only
        exact List.mem_append_right _ (List.mem_singleton.mpr rfl)
  | settle k0 ok =>
    show coverage (settleBringUp s k0 ok)
    intro cid hcid
    rw [settleBringUp_nextCallId] at hcid
    rcases h cid hcid with ⟨p, hp, hpc⟩ | ⟨k, hk⟩ | ⟨out, ho⟩
    · left
      refine ⟨p, ?_, hpc⟩
      rw [settleBringUp_pending]
      exact hp
    · unfold settleBringUp
      split
      next hst =>
        by_cases hkk : k = k0
        · subst hkk
          right; right
          refine ⟨if ok then Outcome.resolved else Outcome.rejected ErrorKind.subsystemInitFailed, ?_⟩
          dsimp only
          exact List.mem_append_right _ (List.mem_map.mpr ⟨cid, hk, rfl⟩)
        · right; left
          refine ⟨k, ?_⟩
          dsimp only
          rw [setSub_other _ _ _ _ hkk]
          exact hk
      next hst =>
        right; left
        exact ⟨k, hk⟩
    · right; right
      refine ⟨out, ?_⟩
      unfold settleBringUp
      split
      · dsimp only
        exact List.mem_append_left _ ho
      · exact ho

/-- C1: last call wins per slot.  Along every event sequence (any mix of
`switchEffect` and `clearEffect` calls and completions), every in-flight
load's captured generation is at most its slot's current generation, so a
completion whose captured generation differs from the current one is exactly a
superseded (lower-generation) completion; and such a completion leaves the
whole slot registry — in particular `activeEffectRef` — the engine call log
and the subsystem states unchanged, even though its fetch finished later.
Only a completion whose captured generation equals the slot's current
generation can mutate them. -/
theorem last_call_wins :
    (∀ (es : List Event) (p : PendingLoad), p ∈ (runTrace es).pending →
        p.capturedGen ≤ ((runTrace es).slots p.slot).generation)
    ∧ (∀ (s : CoordState) (cid : Nat) (ok : Bool) (p : PendingLoad),
        findPending s cid = some p →
        p.capturedGen ≠ (s.slots p.slot).generation →
        (completeLoad s cid ok).slots = s.slots
          ∧ (completeLoad s cid ok).engineLog = s.engineLog
          ∧ (completeLoad s cid ok).subsys = s.subsys) := by
  constructor
  · intro es p hp
    have hinv : pendingGenLe (runTrace es) := by
      apply runFrom_inv pendingGenLe pendingGenLe_step
      intro q hq
      exact absurd hq (List.not_mem_nil q)
    exact hinv p hp
  · intro s cid ok p hf hg
    rw [completeLoad_superseded s cid ok p hf hg]
    exact ⟨rfl, rfl, rfl⟩

/-- Witness for C1: two competing calls on slot "s"; the first call's load is
in flight with captured generation 1 while the slot is already at generation
2, and its completion changes neither the registry nor the engine log. -/
theorem last_call_wins_witness :
    firstLoad ∈ (runTrace twoSwitches).pending
    ∧ firstLoad.capturedGen ≤ ((runTrace twoSwitches).slots firstLoad.slot).generation
    ∧ findPending (runTrace twoSwitches) 0 = some firstLoad
    ∧ firstLoad.capturedGen ≠ ((runTrace twoSwitches).slots firstLoad.slot).generation
    ∧ (completeLoad (runTrace twoSwitches) 0 true).slots = (runTrace twoSwitches).slots
    ∧ (completeLoad (runTrace twoSwitches) 0 true).engineLog = (runTrace twoSwitches).engineLog :=
  ⟨by decide,
   last_call_wins.1 twoSwitches firstLoad (by decide),
   by decide,
   by decide,
   (last_call_wins.2 (runTrace twoSwitches) 0 true firstLoad (by decide) (by decide)).1,
   (last_call_wins.2 (runTrace twoSwitches) 0 true firstLoad (by decide) (by decide)).2.1⟩

/-- C7: every promise-returning operation settles.  `switchEffect` and
`ensureInitialized` issue their promises from the shared identifier counter;
along any schedule `es`, once the environment delivers the completions it
still owes (one fetch completion per in-flight load and one bring-up
settlement per subsystem still Initializing — the `drainEvents`), every
promise identifier ever issued is settled with an outcome, resolved or
rejected, under every interleaving of calls, supersessions and bring-up
failures: no promise is left forever pending and no error is silently
swallowed. -/
theorem every_promise_settles (es : List Event) (cid : Nat)
    (h : cid < (finalState es).nextCallId) :
    ∃ out, (cid, out) ∈ (finalState es).settled := by
  have hcov : coverage (finalState es) := by
    show coverage (runTrace (es ++ drainEvents (runTrace es)))
    apply runFrom_inv coverage coverage_step
    intro cid2 hcid2
    exact absurd hcid2 (Nat.not_lt_zero cid2)
  have hwinv : waitersOnlyWhileInFlight (runTrace es) := by
    apply runFrom_inv waitersOnlyWhileInFlight waitersOnly_step
    intro k hk
    rfl
  have hdrain := drain_all (runTrace es) hwinv
  rcases hcov cid h with ⟨p, hp, hpc⟩ | ⟨k, hk⟩ | ⟨out, ho⟩
  · exfalso
    rw [finalState_eq] at hp
    rw [hdrain.1] at hp
    exact List.not_mem_nil p hp
  · exfalso
    rw [finalState_eq] at hk
    rw [hdrain.2 k] at hk
    exact List.not_mem_nil cid hk
  · exact ⟨out, ho⟩

/-- Witness for C7: after a single `switchEffect` call and the drain, its
promise (identifier 0) is settled. -/
theorem every_promise_settles_witness :
    0 < (finalState oneSwitch).nextCallId
    ∧ ∃ out, (0, out) ∈ (finalState oneSwitch).settled :=
  ⟨by decide, every_promise_settles oneSwitch 0 (by decide)⟩

/-- C2: initialization deduplication.  Along every event sequence, each
subsystem's underlying bring-up runs at most once per session; and when an
in-flight bring-up settles, every caller queued on `pendingWaiters` — however
many joined before settlement — is settled in that same step with one and the
same outcome (all resolve on success, all reject with `SubsystemInitFailed`
on failure; no partial fan-out). -/
theorem init_dedup :
    (∀ (es : List Event) (k : SubsystemKind), ((runTrace es).subsys k).bringUpCount ≤ 1)
    ∧ (∀ (s : CoordState) (k : SubsystemKind) (ok : Bool),
        (s.subsys k).status = .Initializing →
        ∀ w ∈ (s.subsys k).pendingWaiters,
          (w, if ok then Outcome.resolved else Outcome.rejected ErrorKind.subsystemInitFailed)
            ∈ (settleBringUp s k ok).settled) := by
  constructor
  · intro es k
    have hinv : bringUpMatchesStatus (runTrace es) := by
      apply runFrom_inv bringUpMatchesStatus bringUpMatchesStatus_step
      intro k2
      rfl
    rw [hinv k]
    split <;> omega
  · intro s k ok h w hw
    unfold settleBringUp
    rw [if_pos h]
    dsimp only
    refine List.mem_append_right _ ?_
    exact List.mem_map.mpr ⟨w, hw, rfl⟩

/-- Witness for C2: two `ensureInitialized` calls on segmentation before
settlement; both waiters settle together with the same (resolved) outcome,
and only one bring-up ran. -/
theorem init_dedup_witness :
    ((runTrace ensureTwice).subsys .segmentation).status = .Initializing
    ∧ 0 ∈ ((runTrace ensureTwice).subsys .segmentation).pendingWaiters
    ∧ 1 ∈ ((runTrace ensureTwice).subsys .segmentation).pendingWaiters
    ∧ (0, Outcome.resolved) ∈ (settleBringUp (runTrace ensureTwice) .segmentation true).settled
    ∧ (1, Outcome.resolved) ∈ (settleBringUp (runTrace ensureTwice) .segmentation true).settled
    ∧ ((runTrace ensureTwice).subsys .segmentation).bringUpCount ≤ 1 :=
  ⟨by decide, by decide, by decide,
   init_dedup.2 (runTrace ensureTwice) .segmentation true (by decide) 0 (by decide),
   init_dedup.2 (runTrace ensureTwice) .segmentation true (by decide) 1 (by decide),
   init_dedup.1 ensureTwice .segmentation⟩

/-- C3: the subsystem state machine.  Every step moves each subsystem's status
only along Uninitialized→Initializing→{Ready,Failed} (or leaves it
unchanged); once Ready, a subsystem stays Ready under every further event
sequence and `isInitialized` keeps returning true for the remainder of the
session; and on a Ready subsystem `ensureInitialized` leaves the whole
subsystem table untouched — bring-up is never re-triggered. -/
theorem subsys_state_machine :
    (∀ (s : CoordState) (e : Event) (k : SubsystemKind),
        allowedTransition ((s.subsys k).status) (((step s e).subsys k).status))
    ∧ (∀ (s : CoordState) (k : SubsystemKind) (es : List Event),
        (s.subsys k).status = .Ready →
        ((runFrom s es).subsys k).status = .Ready ∧ isInitialized (runFrom s es) k = true)
    ∧ (∀ (s : CoordState) (k : SubsystemKind),
        (s.subsys k).status = .Ready →
        (ensureInitialized s k).subsys = s.subsys) := by
  refine ⟨status_transition_step, ?_, ?_⟩
  · intro s k es h
    have hr := ready_preserved s es k h
    exact ⟨hr, by simp [isInitialized, hr]⟩
  · intro s k h
    unfold ensureInitialized
    simp only [h]

/-- Witness for C3: segmentation brought up to Ready stays Ready across a
further event, and `ensureInitialized` on it is a no-op on the subsystem
table. -/
theorem subsys_state_machine_witness :
    ((runTrace readyTrace).subsys .segmentation).status = .Ready
    ∧ ((runFrom (runTrace readyTrace) [Event.clear none]).subsys .segmentation).status = .Ready
    ∧ isInitialized (runFrom (runTrace readyTrace) [Event.clear none]) .segmentation = true
    ∧ (ensureInitialized (runTrace readyTrace) .segmentation).subsys
        = (runTrace readyTrace).subsys :=
  ⟨by decide,
   (subsys_state_machine.2.1 (runTrace readyTrace) .segmentation [Event.clear none]
     (by decide)).1,
   (subsys_state_machine.2.1 (runTrace readyTrace) .segmentation [Event.clear none]
     (by decide)).2,
   subsys_state_machine.2.2 (runTrace readyTrace) .segmentation (by decide)⟩

/-- C8: `isInitialized` is a pure, non-blocking read — it observes exactly
whether the subsystem's status is Ready and returns the coordinator state
unchanged, for every subsystem kind and every state; the declared wrappers
`isFootTrackingInitialized` and `isSegmentationInitialized` read the same
predicate on their respective subsystems. -/
theorem is_initialized_pure_read (s : CoordState) (k : SubsystemKind) :
    ((isInitializedOp s k).1 = true ↔ (s.subsys k).status = .Ready)
    ∧ (isInitializedOp s k).2 = s
    ∧ (isFootTrackingInitialized s = true ↔ (s.subsys .footTracking).status = .Ready)
    ∧ (isSegmentationInitialized s = true ↔ (s.subsys .segmentation).status = .Ready) := by
  refine ⟨?_, rfl, ?_, ?_⟩ <;>
    simp [isInitializedOp, isInitialized, isFootTrackingInitialized, isSegmentationInitialized]

/-- C10: once `shutdown` runs on a session object, the callable precondition
of every declared public method of that object is violated (false), the
session is no longer alive, while the top-level entry point still produces a
fresh live session. -/
theorem shutdown_invalidates_methods :
    (∀ (s : Session) (m : Method), callable (shutdown s) m = false)
    ∧ (∀ m : Method, callable initializeSession m = true)
    ∧ (∀ s : Session, (shutdown s).alive = false)
    ∧ initializeSession.alive = true :=
  ⟨fun _ _ => rfl, fun _ => rfl, fun _ => rfl, rfl⟩

/-- C5: `ensureInitialized` issues an asynchronous void result under a fresh
promise identifier, and when the subsystem's status is already Ready that
promise resolves immediately in the same step, leaving everything else in the
coordinator unchanged (a no-op the caller can await). -/
theorem ensure_ready_resolves_immediately (s : CoordState) (k : SubsystemKind)
    (h : (s.subsys k).status = .Ready) :
    ensureInitialized s k =
      { s with
          settled := s.settled ++ [(s.nextCallId, Outcome.resolved)]
          nextCallId := s.nextCallId + 1 } := by
  unfold ensureInitialized
  simp only [h]

/-- Witness for C5 at a concrete state with segmentation Ready. -/
theorem ensure_ready_resolves_immediately_witness :
    ((runTrace readyTrace).subsys .segmentation).status = .Ready
    ∧ ensureInitialized (runTrace readyTrace) .segmentation =
        { runTrace readyTrace with
            settled := (runTrace readyTrace).settled
              ++ [((runTrace readyTrace).nextCallId, Outcome.resolved)]
            nextCallId := (runTrace readyTrace).nextCallId + 1 } :=
  ⟨by decide, ensure_ready_resolves_immediately (runTrace readyTrace) .segmentation (by decide)⟩

/-- C6: a `switchEffect` call with a face index outside 0..3 or a malformed
slot identifier settles rejected with `InvalidParameter` synchronously, in the
very step of the call: no in-flight load is registered, so no asynchronous
work begins, and slot state, engine state and subsystem state are all left
exactly as they were. -/
theorem switch_invalid_rejects_synchronously (s : CoordState) (slot : Option SlotId)
    (source : EffectSource) (face : Option Int)
    (h : validFace (face.getD 0) = false ∨ validSlotId (slot.getD defaultSlot) = false) :
    switchEffect s slot source face =
      { s with
          settled := s.settled ++ [(s.nextCallId, Outcome.rejected ErrorKind.invalidParameter)]
          nextCallId := s.nextCallId + 1 } := by
  unfold switchEffect
  rcases h with h | h <;> simp [h]

/-- Witness for C6 at face index 5 on the session-start state. -/
theorem switch_invalid_rejects_synchronously_witness :
    validFace ((some (5 : Int)).getD 0) = false
    ∧ switchEffect initState (some "s") (EffectSource.url "A") (some (5 : Int)) =
        { initState with
            settled := initState.settled
              ++ [(initState.nextCallId, Outcome.rejected ErrorKind.invalidParameter)]
            nextCallId := initState.nextCallId + 1 } :=
  ⟨by decide,
   switch_invalid_rejects_synchronously initState (some "s") (EffectSource.url "A")
     (some (5 : Int)) (Or.inl (by decide))⟩

/-- C4 counterexample: on the empty slot "s" of the session-start state
(`activeEffectRef` is none), `clearEffect` does change state — the slot's
generation increments from 0 to 1 — so "no state change" fails as stated. -/
theorem clear_empty_slot_counterexample :
    (initState.slots "s").activeEffectRef = none
    ∧ (initState.slots "s").generation = 0
    ∧ ((clearEffect initState (some "s")).slots "s").generation = 1
    ∧ ((clearEffect initState (some "s")).slots "s").generation
        ≠ (initState.slots "s").generation := by
  refine ⟨rfl, rfl, ?_, ?_⟩ <;> decide

/-- C4 amended: `clearEffect` on a slot whose `activeEffectRef` is already
none raises no error and changes nothing observable — no engine call is
issued, the reference stays none, every other slot and every other coordinator
field is untouched — but it still increments that slot's generation (the
increment is what supersedes an in-flight load, so it is not skipped on empty
slots). -/
theorem clear_empty_slot_amended (s : CoordState) (slot : Option SlotId)
    (h : (s.slots (slot.getD defaultSlot)).activeEffectRef = none) :
    (clearEffect s slot).engineLog = s.engineLog
    ∧ (clearEffect s slot).settled = s.settled
    ∧ (clearEffect s slot).pending = s.pending
    ∧ (clearEffect s slot).nextCallId = s.nextCallId
    ∧ (clearEffect s slot).subsys = s.subsys
    ∧ ((clearEffect s slot).slots (slot.getD defaultSlot)).activeEffectRef = none
    ∧ ((clearEffect s slot).slots (slot.getD defaultSlot)).generation
        = (s.slots (slot.getD defaultSlot)).generation + 1
    ∧ (∀ id2, id2 ≠ slot.getD defaultSlot → (clearEffect s slot).slots id2 = s.slots id2) := by
  refine ⟨?_, rfl, rfl, rfl, rfl, ?_, ?_, ?_⟩
  · simp [clearEffect, h]
  · simp [clearEffect, setSlot_same]
  · simp [clearEffect, setSlot_same]
  · intro id2 h2
    simp [clearEffect, setSlot_other _ _ _ _ h2]

/-- Witness for the amended C4 at the session-start state. -/
theorem clear_empty_slot_amended_witness :
    (initState.slots ((some "s").getD defaultSlot)).activeEffectRef = none
    ∧ (clearEffect initState (some "s")).engineLog = initState.engineLog
    ∧ ((clearEffect initState (some "s")).slots ((some "s").getD defaultSlot)).generation
        = (initState.slots ((some "s").getD defaultSlot)).generation + 1 :=
  ⟨rfl, (clear_empty_slot_amended initState (some "s") rfl).1,
   (clear_empty_slot_amended initState (some "s") rfl).2.2.2.2.2.2.1⟩

/-- C9: a superseded `switchEffect` completion settles by rejecting with the
dedicated cancellation error `SwitchEffectCanceled` declared thrown by
`switchEffect` in `DeepAR.d.ts` — whatever its fetch outcome — while a
non-superseded completion whose fetch failed rejects with `EffectLoadFailed`;
the two error kinds are distinct, so callers can tell cancellation apart from
a load failure. -/
theorem superseded_rejects_with_canceled :
    (∀ (s : CoordState) (cid : Nat) (ok : Bool) (p : PendingLoad),
        findPending s cid = some p →
        p.capturedGen ≠ (s.slots p.slot).generation →
        (completeLoad s cid ok).settled
          = s.settled ++ [(cid, Outcome.rejected ErrorKind.switchEffectCanceled)])
    ∧ (∀ (s : CoordState) (cid : Nat) (p : PendingLoad),
        findPending s cid = some p →
        p.capturedGen = (s.slots p.slot).generation →
        (completeLoad s cid false).settled
          = s.settled ++ [(cid, Outcome.rejected ErrorKind.effectLoadFailed)])
    ∧ ErrorKind.switchEffectCanceled ≠ ErrorKind.effectLoadFailed := by
  refine ⟨?_, ?_, by decide⟩
  · intro s cid ok p hf hg
    rw [completeLoad_superseded s cid ok p hf hg]
  · intro s cid p hf hg
    rw [completeLoad_matched_fail s cid p hf hg]

/-- Witness for C9: the first of two competing calls on slot "s" is
superseded and rejects canceled; a lone call whose fetch fails rejects with
the load-failure error. -/
theorem superseded_rejects_with_canceled_witness :
    findPending (runTrace twoSwitches) 0 = some firstLoad
    ∧ firstLoad.capturedGen ≠ ((runTrace twoSwitches).slots firstLoad.slot).generation
    ∧ (completeLoad (runTrace twoSwitches) 0 true).settled
        = (runTrace twoSwitches).settled
          ++ [(0, Outcome.rejected ErrorKind.switchEffectCanceled)]
    ∧ findPending (runTrace oneSwitch) 0 = some firstLoad
    ∧ firstLoad.capturedGen = ((runTrace oneSwitch).slots firstLoad.slot).generation
    ∧ (completeLoad (runTrace oneSwitch) 0 false).settled
        = (runTrace oneSwitch).settled ++ [(0, Outcome.rejected ErrorKind.effectLoadFailed)] :=
  ⟨by decide, by decide,
   superseded_rejects_with_canceled.1 (runTrace twoSwitches) 0 true firstLoad
     (by decide) (by decide),
   by decide, by decide,
   superseded_rejects_with_canceled.2.1 (runTrace oneSwitch) 0 firstLoad
     (by decide) (by decide)⟩

end DeepAR
